import Mathlib

/-!
Verification of the real-time inbox synchronization subsystem of the
RentalApp-Docker repository, shallowly embedded in Lean 4.

Client side (app/(tabs)/chats.tsx): the chats screen keeps React state
`chatItems`, `loading`, `searchTerm`, `filteredChatItems`.  We embed this
state as a record and each handler of the component as an explicit state
transformer that also returns the list of observable effects (network
requests, alerts, console logs) the handler performs.

Server side (backend entry file): the socket.io auth middleware and the
connection handler are embedded as functions over an explicit room
membership list.

JS string conventions used throughout: a missing/undefined string field is
modelled as the empty string (the only falsy string value), so the JS
pattern `x || fallback` becomes `if x = "" then fallback else x`.
-/

namespace RentalApp

/-- JS `x || fallback` on strings: the empty string is the falsy case. -/
def jsOr (s fallback : String) : String :=
  if s = "" then fallback else s

/-- JS `Array.prototype.includes` / `String.prototype.includes` search core:
`listIncludes needle hay` is true iff `needle` occurs contiguously in `hay`. -/
def listIncludes (needle : List Char) : List Char → Bool
  | [] => needle.isEmpty
  | c :: t => needle.isPrefixOf (c :: t) || listIncludes needle t

/-- JS `hay.includes(needle)` on strings. -/
def jsIncludes (hay needle : String) : Bool :=
  listIncludes needle.toList hay.toList

/-- JS `s.toLowerCase()` (basic latin letters, matching the data the app
handles), written over the character list so it evaluates in the kernel. -/
def jsToLower (s : String) : String :=
  String.mk (s.data.map Char.toLower)

/--
The thread summary record consumed by the chats screen
(`ChatListItem` in constants/Types.ts, as used by app/(tabs)/chats.tsx).
String fields that may be absent in JS are modelled as possibly empty
strings; `recipientAvatar` keeps its optionality because the code tests it
with a truthiness check.
-/
structure ChatListItem where
  chatId : String
  listingTitle : String
  recipientName : String
  listingOwnerFirebaseUID : String
  recipientFirebaseUID : String
  recipientAvatar : Option String
  lastMessageText : String
  lastMessageTimestamp : Nat
  unreadCount : Nat
deriving DecidableEq

/-- `firebaseUser?.uid === item.listingOwnerFirebaseUID` (renderItem). -/
def isMeTheOwner (viewerUID : String) (item : ChatListItem) : Bool :=
  viewerUID == item.listingOwnerFirebaseUID

/-- `isMeTheOwner ? item.recipientName : item.listingTitle || 'Conversation'`
(renderItem, app/(tabs)/chats.tsx line 595). -/
def titleToDisplay (viewerUID : String) (item : ChatListItem) : String :=
  if isMeTheOwner viewerUID item then item.recipientName
  else jsOr item.listingTitle "Conversation"

/-- isMeTheOwner branch of the subtitle template literals
(renderItem, app/(tabs)/chats.tsx line 596). -/
def subtitleToDisplay (viewerUID : String) (item : ChatListItem) : String :=
  if isMeTheOwner viewerUID item then "Listing: " ++ item.listingTitle
  else "From: " ++ item.recipientName

/-- Title as the SPEC words it (section 4.4): owner sees the counterpart
name, the inquirer sees the listing title.  Stated for comparison with the
code-derived `titleToDisplay`. -/
def specTitle (viewerUID : String) (item : ChatListItem) : String :=
  if isMeTheOwner viewerUID item then item.recipientName
  else item.listingTitle

/-- Subtitle as the SPEC words it (section 4.4). -/
def specSubtitle (viewerUID : String) (item : ChatListItem) : String :=
  if isMeTheOwner viewerUID item then "Listing: " ++ item.listingTitle
  else "From: " ++ item.recipientName

/-- Case-insensitive containment, the property the spec attributes to the
search filter: the haystack contains the needle after lowercasing both. -/
def containsCI (hay needle : String) : Bool :=
  jsIncludes (jsToLower hay) (jsToLower needle)

/-- Body of the search filter predicate
(app/(tabs)/chats.tsx lines 424-429): lowercase the two fields and test
`includes` against the already-lowercased term. -/
def matchesSearch (lowercasedTerm : String) (item : ChatListItem) : Bool :=
  jsIncludes (jsToLower item.listingTitle) lowercasedTerm ||
  jsIncludes (jsToLower item.recipientName) lowercasedTerm

/-- The search useEffect projection (app/(tabs)/chats.tsx lines 420-432):
empty term keeps the whole list, otherwise filter with `matchesSearch`. -/
def filterChats (searchTerm : String) (chatItems : List ChatListItem) :
    List ChatListItem :=
  if searchTerm = "" then chatItems
  else chatItems.filter (matchesSearch (jsToLower searchTerm))

/-- Observable side effects performed by the embedded handlers: network
requests, user-visible alerts, console logging, permission prompts. -/
inductive Effect where
  | fetchThreads
  | deleteRequest (chatId : String)
  | consoleError (msg : String)
  | alertBox (title msg : String)
  | requestPermissions
  | fetchPushToken
  | postPushToken
deriving DecidableEq

/-- Is this effect a user-visible alert dialog? -/
def Effect.isAlertBox : Effect → Bool
  | .alertBox _ _ => true
  | _ => false

/-- Is this effect a console log of an error? -/
def Effect.isConsoleError : Effect → Bool
  | .consoleError _ => true
  | _ => false

/--
React state of the chats screen (app/(tabs)/chats.tsx lines 391-399),
plus two ghost counters that make the asynchronous fetch life cycle
explicit: `inFlight` counts snapshot requests issued and not yet
completed, `fetchesIssued` counts all snapshot requests ever issued.
`user` is the `firebaseUser` from the auth context (`none` when signed
out), modelled by its uid.
-/
structure ReconcilerState where
  user : Option String
  chatItems : List ChatListItem
  loading : Bool
  searchTerm : String
  filteredChatItems : List ChatListItem
  inFlight : Nat
  fetchesIssued : Nat
deriving DecidableEq

/--
Start of `loadChats` (app/(tabs)/chats.tsx lines 401-409): bail out when
there is no user; otherwise set `loading` unless refreshing, and issue the
GET `/api/chat/threads` request.  The request is in flight afterwards.
-/
def loadChatsStart (isRefreshing : Bool) (s : ReconcilerState) :
    ReconcilerState × List Effect :=
  match s.user with
  | none => (s, [])
  | some _ =>
    ({ s with
        loading := if isRefreshing then s.loading else true,
        inFlight := s.inFlight + 1,
        fetchesIssued := s.fetchesIssued + 1 },
     [Effect.fetchThreads])

/--
Successful completion of `loadChats` (lines 410-412 and the finally block
at line 416): `setChatItems(data)` replaces the local list wholesale and
`setLoading(false)` runs.
-/
def loadChatsSuccess (data : List ChatListItem) (s : ReconcilerState) :
    ReconcilerState :=
  { s with
      chatItems := data,
      loading := false,
      inFlight := s.inFlight - 1 }

/--
Failed completion of `loadChats` (catch block lines 413-415 and the
finally block): the error is written to the console, nothing else changes
apart from `setLoading(false)`; the error is not rethrown, so the caller
of `loadChats` observes a normal return.
-/
def loadChatsFailure (msg : String) (s : ReconcilerState) :
    ReconcilerState × List Effect :=
  ({ s with loading := false, inFlight := s.inFlight - 1 },
   [Effect.consoleError ("Failed to load chat threads " ++ msg)])

/--
The socket handler for chat-activity events
(app/(tabs)/chats.tsx line 450): the callback ignores its payload
entirely and calls `loadChats(true)`.  `payload` models the event body
(the scope field, when present).
-/
def onChatActivity (_payload : Option String) (s : ReconcilerState) :
    ReconcilerState × List Effect :=
  loadChatsStart true s

/-- Deliver a list of chat-activity events in order, accumulating the
effects each handler run performs. -/
def processEvents : List (Option String) → ReconcilerState →
    ReconcilerState × List Effect
  | [], s => (s, [])
  | p :: ps, s =>
    let r1 := onChatActivity p s
    let r2 := processEvents ps r1.1
    (r2.1, r1.2 ++ r2.2)

/--
The search useEffect (app/(tabs)/chats.tsx lines 420-432) as a state
transformer: recompute `filteredChatItems` from the term and the current
local list.  Setting the term is the only other thing the search box does.
-/
def applySearchFilter (term : String) (s : ReconcilerState) :
    ReconcilerState :=
  { s with
      searchTerm := term,
      filteredChatItems := filterChats term s.chatItems }

/--
The destructive branch of `handleDelete` (app/(tabs)/chats.tsx lines
516-529) after the server replied: on an ok response
`setChatItems(current => current.filter(item => item.chatId !== chatId))`
runs; on a non-ok response or a thrown error the catch block logs and
shows an alert, leaving the list untouched.  `resOk` is the `res.ok` of
the DELETE request, which is issued in both cases.
-/
def handleDeleteConfirm (resOk : Bool) (chatId : String)
    (s : ReconcilerState) : ReconcilerState × List Effect :=
  if resOk then
    ({ s with chatItems := s.chatItems.filter (fun item => item.chatId != chatId) },
     [Effect.deleteRequest chatId])
  else
    (s,
     [Effect.deleteRequest chatId,
      Effect.consoleError "Delete chat failed:",
      Effect.alertBox "Error" "Could not delete the chat thread. Please try again."])

/-- `socket.join(room)`: idempotent insertion into the membership list
(a socket.io room set, modelled as a duplicate-free list). -/
def socketJoin (room : String) (rooms : List String) : List String :=
  if room ∈ rooms then rooms else rooms ++ [room]

/-- `socket.leave(room)`: removal of the membership. -/
def socketLeave (room : String) (rooms : List String) : List String :=
  rooms.filter (fun r => r != room)

/-- The per-user inbox room name, the backend template literal
`user-inbox-` followed by the mongo user id. -/
def inboxRoom (mongoUserId : String) : String :=
  "user-inbox-" ++ mongoUserId

/-- Body of the connection handler (backend entry file lines 94-97):
the socket auto-joins its owning user's inbox room. -/
def onConnection (mongoUserId : String) (rooms : List String) :
    List String :=
  socketJoin (inboxRoom mongoUserId) rooms

/-- The joinRoom socket event handler (backend line 98). -/
def onJoinRoom (chatId : String) (rooms : List String) : List String :=
  socketJoin chatId rooms

/-- The leaveRoom socket event handler (backend line 99). -/
def onLeaveRoom (chatId : String) (rooms : List String) : List String :=
  socketLeave chatId rooms

/-- The disconnect handler (backend line 100):
`socket.leave(user-inbox-mongoUserId)` — it leaves ONLY the inbox room. -/
def onDisconnect (mongoUserId : String) (rooms : List String) :
    List String :=
  socketLeave (inboxRoom mongoUserId) rooms

/--
The socket auth middleware (backend lines 79-92).  `verifyIdToken` models
`admin.auth().verifyIdToken` returning the decoded uid, `none` standing
for a thrown verification error (the catch block maps every throw to the
Unauthorized error); `findUserByUID` models the `User.findOne` lookup.
On success the middleware stores `(firebaseUID, mongoUserId)` on the
socket and calls `next()`.
-/
def socketAuth (token : Option String)
    (verifyIdToken : String → Option String)
    (findUserByUID : String → Option String) :
    Except String (String × String) :=
  match token with
  | none => Except.error "Authentication token missing"
  | some t =>
    match verifyIdToken t with
    | none => Except.error "Unauthorized"
    | some uid =>
      match findUserByUID uid with
      | none => Except.error "User not found in database"
      | some mongoId => Except.ok (uid, mongoId)

/--
A whole connection attempt: socket.io runs the auth middleware first; if
it passes an error to `next`, the connection is rejected and the
connection handler (which performs the inbox join) never runs; otherwise
the handler runs with the stored identity.
-/
def handleConnection (token : Option String)
    (verifyIdToken : String → Option String)
    (findUserByUID : String → Option String)
    (rooms : List String) : Except String (List String) :=
  match socketAuth token verifyIdToken findUserByUID with
  | Except.error e => Except.error e
  | Except.ok r => Except.ok (onConnection r.2 rooms)

/-- Expo notification permission status values compared against the
string granted in the code. -/
inductive PermissionStatus where
  | granted
  | denied
  | undetermined
deriving DecidableEq, Fintype

/-- Shape of a permission query result across Expo SDK variants: an object
with a string `status` field, an object with a boolean `granted` field, or
anything else. -/
inductive PermissionResult where
  | withStatus (status : PermissionStatus)
  | withGranted (granted : Bool)
  | malformed
deriving DecidableEq, Fintype

/-- `normalizePermissionStatus` (app/(tabs)/chats.tsx lines 374-387). -/
def normalizePermissionStatus (p : PermissionResult) : PermissionStatus :=
  match p with
  | .withStatus st => st
  | .withGranted g => if g then .granted else .denied
  | .malformed => .undetermined

/-- The try block of `registerForPushNotifications` (lines 482-501):
fetch the Expo push token and POST it to the backend; any throw inside is
caught and logged.  `tokenOk` coarsely models whether the block throws. -/
def pushTokenPhase (tokenOk : Bool) : List Effect :=
  if tokenOk then [Effect.fetchPushToken, Effect.postPushToken]
  else [Effect.fetchPushToken,
        Effect.consoleError "Failed to send push token to backend"]

/--
`registerForPushNotifications` (app/(tabs)/chats.tsx lines 462-502) as
its effect trace.  Control flow of the source: return early without a
user; read the existing permission and normalize it; if not granted,
prompt once via `requestPermissionsAsync` and normalize the answer; if the
final status is still not granted, show the Permission Denied alert and
return; otherwise run the token phase.
-/
def registerForPushNotifications (hasUser : Bool)
    (existing requested : PermissionResult) (tokenOk : Bool) :
    List Effect :=
  if hasUser = false then []
  else
    let final1 := normalizePermissionStatus existing
    let promptEffects : List Effect :=
      if final1 != PermissionStatus.granted then [Effect.requestPermissions]
      else []
    let finalStatus :=
      if final1 != PermissionStatus.granted then
        normalizePermissionStatus requested
      else final1
    if finalStatus != PermissionStatus.granted then
      promptEffects ++
        [Effect.alertBox "Permission Denied"
          "Failed to get push token for notifications."]
    else
      promptEffects ++ pushTokenPhase tokenOk

/-- The final permission status `registerForPushNotifications` acts on:
the existing status, or the answer to the single prompt when the existing
status is not granted. -/
def finalPermissionStatus (existing requested : PermissionResult) :
    PermissionStatus :=
  let final1 := normalizePermissionStatus existing
  if final1 != PermissionStatus.granted then
    normalizePermissionStatus requested
  else final1

/-- A concrete thread summary: listing Room A owned by user u1, whose
counterpart (the inquirer u2) has display name Alice — the worked example
of spec section 8. -/
def threadT : ChatListItem :=
  { chatId := "t1", listingTitle := "Room A", recipientName := "Alice",
    listingOwnerFirebaseUID := "u1", recipientFirebaseUID := "u2",
    recipientAvatar := none, lastMessageText := "hi",
    lastMessageTimestamp := 100, unreadCount := 0 }

/-- A thread summary whose listing title is absent (the falsy case of
`item.listingTitle || fallback`). -/
def emptyTitleItem : ChatListItem :=
  { chatId := "t2", listingTitle := "", recipientName := "Bob",
    listingOwnerFirebaseUID := "u1", recipientFirebaseUID := "u2",
    recipientAvatar := none, lastMessageText := "",
    lastMessageTimestamp := 0, unreadCount := 0 }

/-- A concrete reconciler state: signed in as u1, one thread in the local
list, no search term, and one snapshot fetch currently in flight. -/
def sampleState : ReconcilerState :=
  { user := some "u1", chatItems := [threadT], loading := false,
    searchTerm := "", filteredChatItems := [threadT],
    inFlight := 1, fetchesIssued := 1 }

/-! ## Support lemmas -/

/-- `listIncludes` decides contiguous (infix) containment. -/
theorem listIncludes_iff_infix (needle hay : List Char) :
    listIncludes needle hay = true ↔ needle <:+: hay := by
  induction hay with
  | nil =>
    simp [listIncludes, List.isEmpty_iff, List.infix_nil]
  | cons c t ih =>
    simp [listIncludes, List.infix_cons_iff, ih, List.isPrefixOf_iff_prefix,
      Bool.or_eq_true]

/-- The empty needle is contained in every haystack (as in JS). -/
theorem listIncludes_nil (hay : List Char) : listIncludes [] hay = true := by
  induction hay with
  | nil => rfl
  | cons c t ih => simp [listIncludes, ih, List.isPrefixOf]

/-- The search filter in uniform `List.filter` form: the empty-term branch
of the source coincides with filtering by the always-true empty-needle
predicate. -/
theorem filterChats_eq (term : String) (items : List ChatListItem) :
    filterChats term items = items.filter (matchesSearch (jsToLower term)) := by
  unfold filterChats
  split
  · rename_i h
    subst h
    have h0 : jsToLower "" = "" := by decide
    rw [h0]
    symm
    rw [List.filter_eq_self]
    intro a _
    unfold matchesSearch jsIncludes
    have h1 : ("" : String).toList = [] := by decide
    rw [h1]
    simp [listIncludes_nil]
  · rfl

/-- Each delivered chat-activity event makes its own `loadChats(true)`
call, and that call issues its own fetch: the counters grow by the number
of events and one fetchThreads request is emitted per event. -/
theorem processEvents_counts (ps : List (Option String)) :
    ∀ (s : ReconcilerState) (u : String), s.user = some u →
    (processEvents ps s).1.fetchesIssued = s.fetchesIssued + ps.length ∧
    (processEvents ps s).1.inFlight = s.inFlight + ps.length ∧
    (processEvents ps s).1.user = s.user ∧
    List.count Effect.fetchThreads (processEvents ps s).2 = ps.length := by
  induction ps with
  | nil =>
    intro s u h
    simp [processEvents]
  | cons p ps ih =>
    intro s u h
    have hstep : onChatActivity p s =
        ({ s with inFlight := s.inFlight + 1,
                  fetchesIssued := s.fetchesIssued + 1 },
         [Effect.fetchThreads]) := by
      simp [onChatActivity, loadChatsStart, h]
    have huser : (onChatActivity p s).1.user = some u := by
      rw [hstep]; exact h
    obtain ⟨h1, h2, h3, h4⟩ := ih (onChatActivity p s).1 u huser
    have hfi : (onChatActivity p s).1.fetchesIssued = s.fetchesIssued + 1 := by
      rw [hstep]
    have hifl : (onChatActivity p s).1.inFlight = s.inFlight + 1 := by
      rw [hstep]
    have heff : (onChatActivity p s).2 = [Effect.fetchThreads] := by
      rw [hstep]
    refine ⟨?_, ?_, ?_, ?_⟩
    · show (processEvents ps (onChatActivity p s).1).1.fetchesIssued =
        s.fetchesIssued + (p :: ps).length
      rw [h1, hfi, List.length_cons]
      omega
    · show (processEvents ps (onChatActivity p s).1).1.inFlight =
        s.inFlight + (p :: ps).length
      rw [h2, hifl, List.length_cons]
      omega
    · show (processEvents ps (onChatActivity p s).1).1.user = s.user
      rw [h3, huser, h]
    · show List.count Effect.fetchThreads
        ((onChatActivity p s).2 ++ (processEvents ps (onChatActivity p s).1).2)
        = (p :: ps).length
      rw [List.count_append, h4, heff, List.length_cons]
      simp [Nat.add_comm]

/-! ## C1: fetch coalescing -/

/-- C1 counterexample: starting from a session with one snapshot fetch in
flight, two activity events arrive; the reconciler issues two further
fetches (one per event), not at most one — there is no single-flight
coalescing. -/
theorem C1_burst_issues_fetch_per_event :
    sampleState.inFlight = 1 ∧
    (processEvents [none, none] sampleState).1.fetchesIssued -
        sampleState.fetchesIssued = 2 ∧
    ¬((processEvents [none, none] sampleState).1.fetchesIssued -
        sampleState.fetchesIssued ≤ 1) ∧
    List.count Effect.fetchThreads
      (processEvents [none, none] sampleState).2 = 2 := by
  decide

/-- C1 amended: the fetch cycle is not single-flight — every activity
event received triggers its own snapshot fetch, so N events received while
a fetch is in flight issue exactly N additional fetches. -/
theorem C1_every_event_fetches (events : List (Option String))
    (s : ReconcilerState) (u : String) (h : s.user = some u) :
    (processEvents events s).1.fetchesIssued =
      s.fetchesIssued + events.length ∧
    List.count Effect.fetchThreads (processEvents events s).2 =
      events.length :=
  ⟨(processEvents_counts events s u h).1,
   (processEvents_counts events s u h).2.2.2⟩

/-- C1 witness: two events on the concrete in-flight state issue two
fetches. -/
theorem C1_every_event_fetches_witness :
    sampleState.user = some "u1" ∧
    (processEvents [none, some "t9"] sampleState).1.fetchesIssued =
      sampleState.fetchesIssued + 2 :=
  ⟨rfl,
   (C1_every_event_fetches [none, some "t9"] sampleState "u1" rfl).1⟩

/-! ## C2: optimistic delete vs. snapshot merge -/

/-- C2 counterexample: the local list holds thread t1; the user deletes it
(the server confirms); a snapshot fetch that was in flight completes
afterwards still containing t1 — and the merge step reinstates t1 in the
local list.  No tombstone filter exists, refuting the claim that the merge
filters deleted threads out of the replacement list. -/
theorem C2_deleted_thread_reappears :
    sampleState.chatItems = [threadT] ∧
    (handleDeleteConfirm true threadT.chatId sampleState).1.chatItems = [] ∧
    (loadChatsSuccess [threadT]
        (handleDeleteConfirm true threadT.chatId sampleState).1).chatItems =
      [threadT] ∧
    threadT ∈ (loadChatsSuccess [threadT]
        (handleDeleteConfirm true threadT.chatId sampleState).1).chatItems := by
  decide

/-- C2 amended: the success path of the snapshot fetch replaces the local
thread list wholesale with the fetched one; any thread contained in the
fetched snapshot is in the local list afterwards, whether or not the user
deleted it locally in the meantime. -/
theorem C2_snapshot_replaces_list (data : List ChatListItem)
    (s : ReconcilerState) (T : ChatListItem) (h : T ∈ data) :
    (loadChatsSuccess data s).chatItems = data ∧
    T ∈ (loadChatsSuccess data s).chatItems :=
  ⟨rfl, h⟩

/-- C2 witness: the amended statement evaluated on the concrete state. -/
theorem C2_snapshot_replaces_list_witness :
    threadT ∈ [threadT] ∧
    threadT ∈ (loadChatsSuccess [threadT] sampleState).chatItems :=
  ⟨by decide,
   (C2_snapshot_replaces_list [threadT] sampleState threadT (by decide)).2⟩

/-! ## C3: failed snapshot fetch -/

/-- C3 counterexample: on a failed fetch the local list is indeed
preserved, but the only observable effect is a console log — no alert is
shown and nothing reaches the caller, refuting the claim that the error is
surfaced rather than swallowed. -/
theorem C3_failure_only_logs :
    (loadChatsFailure "network error" sampleState).1.chatItems =
      sampleState.chatItems ∧
    (loadChatsFailure "network error" sampleState).2 =
      [Effect.consoleError "Failed to load chat threads network error"] ∧
    ∀ e ∈ (loadChatsFailure "network error" sampleState).2,
      e.isAlertBox = false := by
  decide

/-- C3 amended: a failed snapshot fetch returns the reconciler to idle
(loading cleared) with the local list and all other state intact; the
error is written to the console only — it is not rethrown to the caller
and no alert is shown to the user. -/
theorem C3_fetch_failure_swallowed (msg : String) (s : ReconcilerState) :
    (loadChatsFailure msg s).1.chatItems = s.chatItems ∧
    (loadChatsFailure msg s).1.loading = false ∧
    (loadChatsFailure msg s).1.user = s.user ∧
    (loadChatsFailure msg s).1.searchTerm = s.searchTerm ∧
    (loadChatsFailure msg s).1.filteredChatItems = s.filteredChatItems ∧
    (loadChatsFailure msg s).2 =
      [Effect.consoleError ("Failed to load chat threads " ++ msg)] ∧
    ∀ e ∈ (loadChatsFailure msg s).2, e.isAlertBox = false := by
  refine ⟨rfl, rfl, rfl, rfl, rfl, rfl, ?_⟩
  intro e he
  simp only [loadChatsFailure, List.mem_singleton] at he
  subst he
  rfl

/-- C3 witness: the amended statement evaluated on the concrete state. -/
theorem C3_fetch_failure_swallowed_witness :
    (loadChatsFailure "boom" sampleState).1.chatItems =
      sampleState.chatItems :=
  (C3_fetch_failure_swallowed "boom" sampleState).1

/-! ## C4: disconnect cleanup -/

/-- C4 counterexample: a connection joins its inbox channel and one thread
channel; the disconnect handler leaves only the inbox channel, so the
membership set afterwards still contains the thread channel — it is not
empty, refuting the claim. -/
theorem C4_disconnect_keeps_thread_rooms :
    onDisconnect "u1" (onJoinRoom "chat1" (onConnection "u1" [])) =
      ["chat1"] ∧
    onDisconnect "u1" (onJoinRoom "chat1" (onConnection "u1" [])) ≠ [] := by
  decide

/-- C4 amended: the disconnect handler removes exactly the inbox-channel
membership: afterwards the inbox room is gone, every other room the
connection had joined (thread channels) is still present, and no room
appears that was not there before. -/
theorem C4_disconnect_leaves_inbox_only (mongoUserId : String)
    (rooms : List String) :
    onDisconnect mongoUserId rooms =
      rooms.filter (fun r => r != inboxRoom mongoUserId) ∧
    inboxRoom mongoUserId ∉ onDisconnect mongoUserId rooms ∧
    (∀ r, r ∈ rooms → r ≠ inboxRoom mongoUserId →
      r ∈ onDisconnect mongoUserId rooms) ∧
    (∀ r, r ∈ onDisconnect mongoUserId rooms →
      r ∈ rooms ∧ r ≠ inboxRoom mongoUserId) := by
  refine ⟨rfl, ?_, ?_, ?_⟩
  · simp [onDisconnect, socketLeave, List.mem_filter]
  · intro r hr hne
    simp [onDisconnect, socketLeave, List.mem_filter, hr, hne]
  · intro r hr
    simp only [onDisconnect, socketLeave, List.mem_filter,
      bne_iff_ne, ne_eq] at hr
    exact ⟨hr.1, hr.2⟩

/-- C4 witness: the amended statement evaluated on a concrete connection
that joined the inbox room and one thread room. -/
theorem C4_disconnect_leaves_inbox_only_witness :
    "chat1" ∈ onDisconnect "u1" ["user-inbox-u1", "chat1"] :=
  (C4_disconnect_leaves_inbox_only "u1"
    ["user-inbox-u1", "chat1"]).2.2.1 "chat1" (by decide) (by decide)

/-! ## C5: connection authentication -/

/-- C5: the socket auth middleware rejects a connection attempt before the
connection handler can grant any channel membership, with a distinct
reason for each failure: missing token, failed verification, and an
identity absent from the user directory; only a fully authenticated
attempt reaches the handler, which then joins the inbox channel. -/
theorem C5_auth_gate (verifyIdToken findUserByUID : String → Option String)
    (t : String) (rooms rooms2 : List String) :
    handleConnection none verifyIdToken findUserByUID rooms =
      Except.error "Authentication token missing" ∧
    (verifyIdToken t = none →
      handleConnection (some t) verifyIdToken findUserByUID rooms =
        Except.error "Unauthorized") ∧
    (∀ uid, verifyIdToken t = some uid → findUserByUID uid = none →
      handleConnection (some t) verifyIdToken findUserByUID rooms =
        Except.error "User not found in database") ∧
    (("Authentication token missing" : String) ≠ "Unauthorized" ∧
     ("Authentication token missing" : String) ≠ "User not found in database" ∧
     ("Unauthorized" : String) ≠ "User not found in database") ∧
    (handleConnection (some t) verifyIdToken findUserByUID rooms =
        Except.ok rooms2 →
      ∃ uid mongoId, verifyIdToken t = some uid ∧
        findUserByUID uid = some mongoId ∧
        rooms2 = onConnection mongoId rooms) := by
  refine ⟨rfl, ?_, ?_, by decide, ?_⟩
  · intro hv
    simp [handleConnection, socketAuth, hv]
  · intro uid hv hf
    simp [handleConnection, socketAuth, hv, hf]
  · intro h
    cases hv : verifyIdToken t with
    | none =>
      simp [handleConnection, socketAuth, hv] at h
    | some uid =>
      cases hf : findUserByUID uid with
      | none => simp [handleConnection, socketAuth, hv, hf] at h
      | some mid =>
        simp [handleConnection, socketAuth, hv, hf] at h
        exact ⟨uid, mid, rfl, hf, h.symm⟩

/-- C5 witness: a connection attempt whose credential fails verification
is rejected with the Unauthorized reason. -/
theorem C5_auth_gate_witness :
    handleConnection (some "tok") (fun _ => none) (fun _ => none) [] =
      Except.error "Unauthorized" :=
  (C5_auth_gate (fun _ => none) (fun _ => none) "tok" [] []).2.1 rfl

/-! ## C6: displayed title and subtitle -/

/-- C6 counterexample: for a thread whose listing title is absent (empty
string), the inquirer sees the fallback title Conversation, not the
listing title, refuting the claim that the inquirer title is always the
listing title. -/
theorem C6_inquirer_fallback_title :
    isMeTheOwner "u2" emptyTitleItem = false ∧
    emptyTitleItem.listingTitle = "" ∧
    titleToDisplay "u2" emptyTitleItem = "Conversation" ∧
    titleToDisplay "u2" emptyTitleItem ≠ specTitle "u2" emptyTitleItem := by
  decide

/-- C6 amended: for threads whose listing title is nonempty, the display
is exactly as claimed — the owner sees the counterpart name as title with
subtitle Listing: title, the inquirer sees the listing title as title with
subtitle From: name (when the listing title is empty the inquirer title
falls back to Conversation). -/
theorem C6_display_rule (viewerUID : String) (item : ChatListItem)
    (h : item.listingTitle ≠ "") :
    titleToDisplay viewerUID item = specTitle viewerUID item ∧
    subtitleToDisplay viewerUID item = specSubtitle viewerUID item ∧
    (isMeTheOwner viewerUID item = true →
      titleToDisplay viewerUID item = item.recipientName ∧
      subtitleToDisplay viewerUID item = "Listing: " ++ item.listingTitle) ∧
    (isMeTheOwner viewerUID item = false →
      titleToDisplay viewerUID item = item.listingTitle ∧
      subtitleToDisplay viewerUID item = "From: " ++ item.recipientName) := by
  unfold titleToDisplay specTitle subtitleToDisplay specSubtitle jsOr
  cases ho : isMeTheOwner viewerUID item <;> simp [ho, h]

/-- C6 witness: the spec example — listing Room A owned by u1, inquirer
u2 named Alice — viewed by each side. -/
theorem C6_display_rule_witness :
    threadT.listingTitle ≠ "" ∧
    titleToDisplay "u1" threadT = specTitle "u1" threadT ∧
    titleToDisplay "u2" threadT = specTitle "u2" threadT :=
  ⟨by decide,
   (C6_display_rule "u1" threadT (by decide)).1,
   (C6_display_rule "u2" threadT (by decide)).1⟩

/-! ## C7: search filtering -/

/-- C7: search filtering is a pure synchronous projection — the filtered
view equals the filter of the local list by case-insensitive containment
of the term in the listing title or counterpart name, it is a subsequence
of the local list, the empty term yields the whole list, and running the
search effect leaves the local list, the loading flag and the fetch
counters untouched. -/
theorem C7_search_pure_projection (term : String) (s : ReconcilerState) :
    filterChats term s.chatItems =
      s.chatItems.filter
        (fun item => containsCI item.listingTitle term ||
                     containsCI item.recipientName term) ∧
    List.Sublist (filterChats term s.chatItems) s.chatItems ∧
    (∀ x, x ∈ filterChats term s.chatItems ↔ x ∈ s.chatItems ∧
      ((jsToLower term).toList <:+: (jsToLower x.listingTitle).toList ∨
       (jsToLower term).toList <:+: (jsToLower x.recipientName).toList)) ∧
    filterChats "" s.chatItems = s.chatItems ∧
    (applySearchFilter term s).chatItems = s.chatItems ∧
    (applySearchFilter term s).user = s.user ∧
    (applySearchFilter term s).loading = s.loading ∧
    (applySearchFilter term s).inFlight = s.inFlight ∧
    (applySearchFilter term s).fetchesIssued = s.fetchesIssued ∧
    (applySearchFilter term s).filteredChatItems =
      filterChats term s.chatItems := by
  refine ⟨filterChats_eq term s.chatItems, ?_, ?_, rfl, rfl, rfl, rfl, rfl,
    rfl, rfl⟩
  · rw [filterChats_eq]
    exact List.filter_sublist s.chatItems
  · intro x
    rw [filterChats_eq, List.mem_filter]
    simp [matchesSearch, jsIncludes, listIncludes_iff_infix]

/-- C7 witness: the characterization evaluated at a concrete term and
state. -/
theorem C7_search_pure_projection_witness :
    filterChats "room" sampleState.chatItems =
      sampleState.chatItems.filter
        (fun item => containsCI item.listingTitle "room" ||
                     containsCI item.recipientName "room") :=
  (C7_search_pure_projection "room" sampleState).1

/-! ## C8: push notification permission -/

/-- C8: whenever the final permission status (existing status, or the
answer to the single prompt) is anything other than granted, the push
token phase is skipped entirely — no token fetch, no registration request
— at most one permission prompt was shown, the user is informed by the
Permission Denied alert, and no error is logged or escalated. -/
theorem C8_denied_skips_registration (existing requested : PermissionResult)
    (tokenOk : Bool)
    (h : finalPermissionStatus existing requested ≠ PermissionStatus.granted) :
    Effect.fetchPushToken ∉
      registerForPushNotifications true existing requested tokenOk ∧
    Effect.postPushToken ∉
      registerForPushNotifications true existing requested tokenOk ∧
    Effect.alertBox "Permission Denied"
        "Failed to get push token for notifications." ∈
      registerForPushNotifications true existing requested tokenOk ∧
    List.count Effect.requestPermissions
      (registerForPushNotifications true existing requested tokenOk) ≤ 1 ∧
    (∀ e, e ∈ registerForPushNotifications true existing requested tokenOk →
      e.isConsoleError = false) := by
  revert h
  revert tokenOk
  revert requested
  revert existing
  decide

/-- C8 witness: the denied outcome on a concrete run. -/
theorem C8_denied_skips_registration_witness :
    finalPermissionStatus (PermissionResult.withGranted false)
        (PermissionResult.withGranted false) ≠ PermissionStatus.granted ∧
    Effect.alertBox "Permission Denied"
        "Failed to get push token for notifications." ∈
      registerForPushNotifications true (PermissionResult.withGranted false)
        (PermissionResult.withGranted false) true :=
  ⟨by decide,
   (C8_denied_skips_registration (PermissionResult.withGranted false)
      (PermissionResult.withGranted false) true (by decide)).2.2.1⟩

/-! ## C9: thread deletion -/

/-- C9: deletion is atomic with respect to the server response — on a
non-ok response the state is untouched and an error alert is shown; on an
ok response the local list becomes exactly the previous list minus the
items whose chatId matches, preserving every other item and their order,
with no alert. -/
theorem C9_delete_atomic (chatId : String) (s : ReconcilerState) :
    (handleDeleteConfirm false chatId s).1 = s ∧
    Effect.alertBox "Error"
        "Could not delete the chat thread. Please try again." ∈
      (handleDeleteConfirm false chatId s).2 ∧
    (handleDeleteConfirm true chatId s).1.chatItems =
      s.chatItems.filter (fun item => item.chatId != chatId) ∧
    List.Sublist (handleDeleteConfirm true chatId s).1.chatItems
      s.chatItems ∧
    (∀ x, x ∈ s.chatItems → x.chatId ≠ chatId →
      x ∈ (handleDeleteConfirm true chatId s).1.chatItems) ∧
    (∀ x, x ∈ (handleDeleteConfirm true chatId s).1.chatItems →
      x ∈ s.chatItems ∧ x.chatId ≠ chatId) ∧
    (∀ e, e ∈ (handleDeleteConfirm true chatId s).2 →
      e.isAlertBox = false) := by
  refine ⟨rfl, by simp [handleDeleteConfirm], rfl, ?_, ?_, ?_, ?_⟩
  · exact List.filter_sublist s.chatItems
  · intro x hx hne
    simp [handleDeleteConfirm, List.mem_filter, hx, hne]
  · intro x hx
    simp only [handleDeleteConfirm, if_pos, List.mem_filter, bne_iff_ne,
      ne_eq] at hx
    exact ⟨hx.1, hx.2⟩
  · intro e he
    simp only [handleDeleteConfirm, if_pos, List.mem_singleton] at he
    subst he
    rfl

/-- C9 witness: deleting an absent id keeps the present thread. -/
theorem C9_delete_atomic_witness :
    threadT ∈ (handleDeleteConfirm true "t9" sampleState).1.chatItems :=
  (C9_delete_atomic "t9" sampleState).2.2.2.2.1 threadT (by decide)
    (by decide)

/-! ## C10: activity events only trigger a re-fetch -/

/-- C10: the chat-activity handler is payload-independent — any two
payloads produce identical behaviour — and its only effect is to issue
the snapshot fetch: the local list, filtered list, search term, loading
flag and user are untouched, while the fetch counters advance by one. -/
theorem C10_activity_triggers_refetch (p q : Option String)
    (s : ReconcilerState) (u : String) (h : s.user = some u) :
    onChatActivity p s = onChatActivity q s ∧
    (onChatActivity p s).2 = [Effect.fetchThreads] ∧
    (onChatActivity p s).1.chatItems = s.chatItems ∧
    (onChatActivity p s).1.filteredChatItems = s.filteredChatItems ∧
    (onChatActivity p s).1.searchTerm = s.searchTerm ∧
    (onChatActivity p s).1.loading = s.loading ∧
    (onChatActivity p s).1.user = s.user ∧
    (onChatActivity p s).1.fetchesIssued = s.fetchesIssued + 1 ∧
    (onChatActivity p s).1.inFlight = s.inFlight + 1 := by
  refine ⟨rfl, ?_, ?_, ?_, ?_, ?_, ?_, ?_, ?_⟩ <;>
    simp [onChatActivity, loadChatsStart, h]

/-- C10 witness: a scoped and an unscoped event behave identically on the
concrete state, and the handler issues exactly the fetch. -/
theorem C10_activity_triggers_refetch_witness :
    sampleState.user = some "u1" ∧
    (onChatActivity (some "T123") sampleState).2 = [Effect.fetchThreads] :=
  ⟨rfl,
   (C10_activity_triggers_refetch (some "T123") none sampleState "u1"
      rfl).2.1⟩

end RentalApp
